import Mathlib

/-!
The cellular bring-up example, `main.cpp` of mbed-os-example-cellular.

A shallow embedding of the cellular bring-up example.  Every function of
`main.cpp` is embedded as a pure function that returns the list of calls it
makes on its collaborators (AT handler, cellular device, network interface,
socket, output stream), in program order, together with its return value.
The answers of the collaborators are inputs of the embedding, so a theorem
quantified over those inputs speaks about every device behaviour.

Integers of the program (`int`, `nsapi_error_t`, `nsapi_size_or_error_t`) are
only compared, never computed with, and are embedded as `Int`; the `uint8_t`
retry counter is a `Nat` incremented modulo `2^8`.
-/

namespace Cellular

/-! ## Constants -/

/-- Modelled from the spec: the platform header `nsapi_types.h` is not under
`src/`.  `NSAPI_ERROR_OK` is the success status, `0` in the platform header;
`main` compares the `0` returned by `test_send_recv` against it. -/
def NSAPI_ERROR_OK : Int := 0

/-- Modelled from the spec: the platform header `nsapi_types.h` is not under
`src/`.  `NSAPI_ERROR_NO_CONNECTION` is the "not connected" error, `-3004` in
the platform header. -/
def NSAPI_ERROR_NO_CONNECTION : Int := -3004

/-- Modelled from the spec: the platform header `nsapi_types.h` is not under
`src/`.  `NSAPI_ERROR_AUTH_FAILURE` is the "authentication failure" error,
`-3011` in the platform header. -/
def NSAPI_ERROR_AUTH_FAILURE : Int := -3011

/-- Modelled from the spec: the platform enumeration
`nsapi_connection_status_t` is not under `src/`; the spec names its value
"globally up" and leaves the others open. -/
inductive nsapi_connection_status_t
  | NSAPI_STATUS_LOCAL_UP
  | NSAPI_STATUS_GLOBAL_UP
  | NSAPI_STATUS_DISCONNECTED
  | NSAPI_STATUS_CONNECTING
  | NSAPI_STATUS_ERROR_UNSUPPORTED
  deriving DecidableEq, Repr

open nsapi_connection_status_t

/-- Macro `#define RETRY_COUNT 3`, commented "Number of retries". -/
def RETRY_COUNT : Nat := 3

def IOT_TECHNOLOGY_CATM1 : Int := 0
def IOT_TECHNOLOGY_NBIOT : Int := 1
def IOT_TECHNOLOGY_CATM1_PREFERRED : Int := 2
def IOT_TECHNOLOGY_NBIOT_PREFERRED : Int := 3

def DESIRED_IOT_TECHNOLOGY : Int := IOT_TECHNOLOGY_NBIOT_PREFERRED

def WDS_SIDE_STACK_GERAN_ONLY : Int := 12
def WDS_SIDE_STACK_EUTRAN_ONLY : Int := 28
def WDS_SIDE_STACK_GERAN_AND_EUTRAN : Int := 30

def DESIRED_WDS_SIDE_STACK : Int := WDS_SIDE_STACK_EUTRAN_ONLY

def DESIRED_LTE_BANDS_BITMASK : Int := 134742021

/-! ## Calls on the collaborators -/

/-- An argument of a formatted write. -/
inductive Arg
  | int (v : Int)
  | str (s : String)
  deriving DecidableEq, Repr

/-- One call made by the program on a collaborator.  A call whose answer the
program uses carries that answer. -/
inductive Event
  -- `ATHandler`
  | at_lock
  | at_unlock
  | cmd_start_stop (cmd : String) (cmd_chr : String)
  | resp_start (pfx : String)
  | read_int (result : Int)
  | resp_stop
  | at_cmd_discard (cmd : String) (cmd_chr : String) (format : String) (args : List Int)
  | get_last_error (result : Int)
  -- `CellularDevice`
  | hard_power_off
  | hard_power_on
  | soft_power_on
  -- output stream and its mutex
  | trace_mutex_lock
  | trace_mutex_unlock
  | printf (format : String) (args : List Arg)
  | tr_info (format : String) (args : List Int)
  -- `NetworkInterface`
  | set_default_parameters
  | get_connection_status (result : nsapi_connection_status_t)
  | connect (result : Int)
  | disconnect (result : Int)
  | gethostbyname (host : String) (result : Int)
  -- socket
  | sock_open (result : Int)
  | sock_set_timeout (ms : Int)
  | set_port (port : Nat)
  | sock_connect (result : Int)
  | sock_send (data : String) (size : Nat) (result : Int)
  | sock_sendto (data : String) (size : Nat) (result : Int)
  | sock_recv (size : Nat) (result : Int) (data : List Nat)
  | sock_recvfrom (size : Nat) (result : Int) (data : List Nat)
  | sock_close
  | sock_destructor
  -- tracing and the progress thread
  | trace_open
  | trace_close
  | dot_thread_start
  | dot_thread_terminate
  deriving DecidableEq, Repr

open Event

/-! ## Status Reporter -/

/-- Function `print_function`: one formatted write, bracketed by `trace_mutex`. -/
def print_function (format : String) (args : List Arg) : List Event :=
  [trace_mutex_lock, printf format args, trace_mutex_unlock]

/-! ## Device Configurator -/

/-- The three calls that power-cycle the module. -/
def power_cycle : List Event :=
  [hard_power_off, hard_power_on, soft_power_on]

/-- Function `set_iot_technology(dev, desired_iot_technology)`.  `read` is the answer of
`read_int()`, `last_error` the answer of `get_last_error()` after the write. -/
def set_iot_technology (read last_error : Int) (desired_iot_technology : Int) :
    List Event :=
  let iot_technology := read
  let query := [at_lock, cmd_start_stop "#WS46" "?", resp_start "#WS46:",
    read_int iot_technology, resp_stop]
  if iot_technology = desired_iot_technology then
    query ++ [at_unlock]
  else
    let write := [at_cmd_discard "#WS46" "=" "%d" [desired_iot_technology],
      get_last_error last_error]
    if last_error ≠ NSAPI_ERROR_OK then
      query ++ write ++ [printf "ERROR: Unable to set IoT technology!\n" [], at_unlock]
    else
      query ++ write ++ [at_unlock] ++ power_cycle

/-- Function `set_wds_side_stack(dev, desired_side_stack)`. -/
def set_wds_side_stack (read last_error : Int) (desired_side_stack : Int) :
    List Event :=
  let side_stack := read
  let query := [at_lock, cmd_start_stop "+WS46" "?", resp_start "+WS46:",
    read_int side_stack, resp_stop]
  if side_stack = desired_side_stack then
    query ++ [at_unlock]
  else
    let write := [at_cmd_discard "+WS46" "=" "%d" [desired_side_stack],
      get_last_error last_error]
    if last_error ≠ NSAPI_ERROR_OK then
      query ++ write ++ [printf "ERROR: Unable to set WDS-Side Stack!\n" [], at_unlock]
    else
      query ++ write ++ [at_unlock] ++ power_cycle

/-- Function `set_desired_lte_bands(dev)`.  `gsm`, `umts`, `lte` are the answers of the
three `read_int()` calls, in order. -/
def set_desired_lte_bands (gsm umts lte last_error : Int) : List Event :=
  let gsm_bands_bitmask := gsm
  let umts_bands_bitmask := umts
  let lte_bands_bitmask := lte
  let query := [at_lock, cmd_start_stop "#BND" "?", resp_start "#BND:",
    read_int gsm_bands_bitmask, read_int umts_bands_bitmask,
    read_int lte_bands_bitmask, resp_stop,
    tr_info "GSM Bands Bitmask:     %d" [gsm_bands_bitmask],
    tr_info "UMTS Bands Bitmask:    %d" [umts_bands_bitmask],
    tr_info "LTE Bands Bitmask:     %d" [lte_bands_bitmask]]
  if lte_bands_bitmask = DESIRED_LTE_BANDS_BITMASK then
    query ++ [at_unlock]
  else
    let write := [at_cmd_discard "#BND" "=" "%d%d%d" [5, 0, DESIRED_LTE_BANDS_BITMASK],
      get_last_error last_error]
    if last_error ≠ NSAPI_ERROR_OK then
      query ++ write ++ [printf "ERROR: Unable to set LTE bands!\n" [], at_unlock]
    else
      query ++ write ++ [at_unlock] ++ power_cycle

/-! ## Connection Manager -/

/-- Answers of the collaborators during one run of the program. -/
structure World where
  /-- answers of the three `read_int()` calls of the `#BND?` query -/
  bnd_gsm : Int
  bnd_umts : Int
  bnd_lte : Int
  /-- answer of `get_last_error()` after the `#BND=` write -/
  bnd_last_error : Int
  /-- answer of `read_int()` of the `#WS46?` query -/
  iot_read : Int
  iot_last_error : Int
  /-- answer of `read_int()` of the `+WS46?` query -/
  wds_read : Int
  wds_last_error : Int
  /-- answer of the `i`-th call of `iface->get_connection_status()` -/
  connection_status : Nat → nsapi_connection_status_t
  /-- answer of the `i`-th call of `iface->connect()` -/
  connect : Nat → Int
  /-- answers of the socket and resolver calls of `test_send_recv` -/
  sock_open : Int
  gethostbyname : Int
  sock_connect : Int
  sock_send : Int
  sock_recv : Int
  /-- bytes the receive call stores in `recv_buf` -/
  recv_data : List Nat
  /-- answer of `iface->disconnect()` -/
  disconnect : Int

/-- The `while` loop of `do_connect`, entered with the current `retcode` and
`retry_counter`, after `i` iterations have run (so the next status query and
the next connect request are the `i`-th answers of the interface).  Returns
the final `retcode` and the calls made. -/
def connect_loop (w : World) (retcode : Int) (retry_counter : Nat) (i : Nat) :
    Int × List Event :=
  if w.connection_status i ≠ NSAPI_STATUS_GLOBAL_UP then
    let retcode := w.connect i
    let head := [get_connection_status (w.connection_status i), connect retcode]
    if retcode = NSAPI_ERROR_AUTH_FAILURE then
      (retcode, head ++
        print_function "\n\nAuthentication Failure. Exiting application\n" [])
    else if retcode = NSAPI_ERROR_OK then
      (retcode, head ++ print_function "\n\nConnection Established.\n" [])
    else if h : retry_counter > RETRY_COUNT then
      (retcode, head ++
        print_function "\n\nFatal connection failure: %d\n" [Arg.int retcode])
    else
      let rest := connect_loop w retcode ((retry_counter + 1) % 2 ^ 8) (i + 1)
      (rest.1, head ++
        print_function "\n\nCouldn't connect: %d, will retry\n" [Arg.int retcode] ++
        rest.2)
  else
    (retcode, [get_connection_status (w.connection_status i)])
termination_by RETRY_COUNT + 1 - retry_counter
decreasing_by
  simp only [RETRY_COUNT] at h ⊢
  omega

/-- Function `do_connect()`: power-on, the three configuration passes, then
the connect loop.  Returns `retcode` and the calls made. -/
def do_connect (w : World) : Int × List Event :=
  let retcode := NSAPI_ERROR_OK
  let retry_counter := 0
  let setup := [hard_power_on, soft_power_on] ++
    set_desired_lte_bands w.bnd_gsm w.bnd_umts w.bnd_lte w.bnd_last_error ++
    set_iot_technology w.iot_read w.iot_last_error DESIRED_IOT_TECHNOLOGY ++
    set_wds_side_stack w.wds_read w.wds_last_error DESIRED_WDS_SIDE_STACK
  let loop := connect_loop w retcode retry_counter 0
  (loop.1, setup ++ loop.2)

/-- Number of `iface->connect()` requests in a list of calls. -/
def connect_requests : List Event → Nat
  | [] => 0
  | connect _ :: es => connect_requests es + 1
  | _ :: es => connect_requests es

/-- A world in which every register already has its desired value and the
echo server answers; the interface answers `status` and `connect`. -/
def configured_world (status : Nat → nsapi_connection_status_t) (connect : Nat → Int) :
    World where
  bnd_gsm := 5
  bnd_umts := 0
  bnd_lte := DESIRED_LTE_BANDS_BITMASK
  bnd_last_error := 0
  iot_read := DESIRED_IOT_TECHNOLOGY
  iot_last_error := 0
  wds_read := DESIRED_WDS_SIDE_STACK
  wds_last_error := 0
  connection_status := status
  connect := connect
  sock_open := 0
  gethostbyname := 0
  sock_connect := 0
  sock_send := 4
  sock_recv := 4
  recv_data := [84, 69, 83, 84]
  disconnect := 0

/-- The interface never comes up and every connect request answers `err`. -/
def stuck_world (err : Int) : World :=
  configured_world (fun _ => NSAPI_STATUS_DISCONNECTED) (fun _ => err)

/-- The first connect request fails with NSAPI_ERROR_NO_CONNECTION and the
interface is globally up at the next status query. -/
def late_up_world : World :=
  configured_world
    (fun i => if i = 0 then NSAPI_STATUS_DISCONNECTED else NSAPI_STATUS_GLOBAL_UP)
    (fun _ => NSAPI_ERROR_NO_CONNECTION)

/-- The first connect request fails with NSAPI_ERROR_NO_CONNECTION, the second
with NSAPI_ERROR_AUTH_FAILURE; later requests would succeed. -/
def auth_world : World :=
  configured_world (fun _ => NSAPI_STATUS_DISCONNECTED)
    (fun i => if i = 0 then NSAPI_ERROR_NO_CONNECTION
      else if i = 1 then NSAPI_ERROR_AUTH_FAILURE else NSAPI_ERROR_OK)

/-- After a connect request answered with authentication failure, the list of
calls `t` holds no further connect request, and `ret` is that failure. -/
def AuthFailureIsFinal (t : List Event) (ret : Int) : Prop :=
  ∀ pre post, t = pre ++ connect NSAPI_ERROR_AUTH_FAILURE :: post →
    connect_requests post = 0 ∧ ret = NSAPI_ERROR_AUTH_FAILURE

/-! ## Echo Verifier -/

/-- Values of the build-time selector `MBED_CONF_APP_SOCK_TYPE`. -/
inductive SockType
  | UDP
  | TCP
  | NONIP
  deriving DecidableEq, Repr

open SockType

/-- Build-time configuration read by `main.cpp`. -/
structure Config where
  /-- selector `MBED_CONF_APP_SOCK_TYPE` -/
  sock_type : SockType
  /-- switch `MBED_CONF_MBED_TRACE_ENABLE` -/
  trace_enable : Bool
  /-- `MBED_CONF_NSAPI_DEFAULT_CELLULAR_PLMN`: undefined, defined as null, or
  defined as a string -/
  plmn : Option (Option String)
  /-- `MBED_CONF_APP_ECHO_SERVER_HOSTNAME` -/
  host_name : String
  /-- `MBED_CONF_APP_ECHO_SERVER_PORT` -/
  port : Int
  /-- `__DATE__` and `__TIME__` -/
  build_date : String
  build_time : String

/-- Payload `const char *echo_string = "TEST"`. -/
def echo_string : String := "TEST"

/-- Capacity `sizeof(recv_buf)` of `char recv_buf[4]`. -/
def recv_buf_size : Nat := 4

/-- C `strlen`: the number of bytes before the terminator. -/
def strlen (s : String) : Nat := s.utf8ByteSize

/-- The message printed when `sock.open` fails, per transport. -/
def open_fails_format : SockType → String
  | TCP => "TCPSocket.open() fails, code: %d\n"
  | UDP => "UDPSocket.open() fails, code: %d\n"
  | NONIP => "CellularNonIPSocket.open() fails, code: %d\n"

/-- The end of `test_send_recv`, from `sock.close()` on: `n` is the received
byte count and `t` the calls made so far. -/
def close_and_report (n : Int) (t : List Event) : Int × List Event :=
  let t := t ++ [sock_close]
  if n > 0 then
    (0, t ++ print_function "Received from echo server %d Bytes\n" [Arg.int n])
  else
    (-1, t)

/-- The statements of `test_send_recv()` for the transport selected in `c`:
the function result and the calls written in the function body, in order.
The three `#if` branches are the three cases of the `match`.  `set_port` takes
a `uint16_t`, so the `int` port is reduced modulo `2^16`. -/
def test_send_recv_body (c : Config) (w : World) : Int × List Event :=
  let retcode := w.sock_open
  let t := [sock_open retcode]
  if retcode ≠ NSAPI_ERROR_OK then
    (-1, t ++ print_function (open_fails_format c.sock_type) [Arg.int retcode])
  else
    let t := t ++ [sock_set_timeout 15000]
    match c.sock_type with
    | NONIP =>
      let retcode := w.sock_send
      let t := t ++ [sock_send echo_string (strlen echo_string) retcode]
      if retcode < 0 then
        (-1, t ++ print_function "CellularNonIPSocket.send() fails, code: %d\n"
          [Arg.int retcode])
      else
        let t := t ++ print_function "CellularNonIPSocket: Sent %d Bytes\n"
          [Arg.int retcode]
        let n := w.sock_recv
        close_and_report n (t ++ [sock_recv recv_buf_size n w.recv_data])
    | TCP =>
      let retcode := w.gethostbyname
      let t := t ++ [gethostbyname c.host_name retcode]
      if retcode ≠ NSAPI_ERROR_OK then
        (-1, t ++ print_function "Couldn't resolve remote host: %s, code: %d\n"
          [Arg.str c.host_name, Arg.int retcode])
      else
        let t := t ++ [set_port (c.port % 2 ^ 16).toNat]
        let retcode := w.sock_connect
        let t := t ++ [sock_connect retcode]
        if retcode < 0 then
          (-1, t ++ print_function "TCPSocket.connect() fails, code: %d\n"
            [Arg.int retcode])
        else
          let t := t ++ print_function "TCP: connected with %s server\n"
            [Arg.str c.host_name]
          let retcode := w.sock_send
          let t := t ++ [sock_send echo_string (strlen echo_string) retcode]
          if retcode < 0 then
            (-1, t ++ print_function "TCPSocket.send() fails, code: %d\n"
              [Arg.int retcode])
          else
            let t := t ++ print_function "TCP: Sent %d Bytes to %s\n"
              [Arg.int retcode, Arg.str c.host_name]
            let n := w.sock_recv
            close_and_report n (t ++ [sock_recv recv_buf_size n w.recv_data])
    | UDP =>
      let retcode := w.gethostbyname
      let t := t ++ [gethostbyname c.host_name retcode]
      if retcode ≠ NSAPI_ERROR_OK then
        (-1, t ++ print_function "Couldn't resolve remote host: %s, code: %d\n"
          [Arg.str c.host_name, Arg.int retcode])
      else
        let t := t ++ [set_port (c.port % 2 ^ 16).toNat]
        let retcode := w.sock_send
        let t := t ++ [sock_sendto echo_string (strlen echo_string) retcode]
        if retcode < 0 then
          (-1, t ++ print_function "UDPSocket.sendto() fails, code: %d\n"
            [Arg.int retcode])
        else
          let t := t ++ print_function "UDP: Sent %d Bytes to %s\n"
            [Arg.int retcode, Arg.str c.host_name]
          let n := w.sock_recv
          close_and_report n (t ++ [sock_recvfrom recv_buf_size n w.recv_data])

/-- Function `test_send_recv()`.  `sock` is an automatic object declared at
the top of the function, so each `return` of the body runs its destructor
before control goes back to the caller: the destructor call ends the list of
calls on every path. -/
def test_send_recv (c : Config) (w : World) : Int × List Event :=
  let body := test_send_recv_body c w
  (body.1, body.2 ++ [sock_destructor])

/-- Modelled from the spec: the platform socket classes (`TCPSocket`,
`UDPSocket`, `CellularNonIPSocket`) are not under `src/`.  State of the socket
after one call, `true` for open: `open` answering NSAPI_ERROR_OK opens it,
`close` closes it, and the destructor closes it if it is still open (the spec
has the socket "created and torn down (socket closed) within a single call
regardless of outcome"); no other call changes the state. -/
def socket_step (is_open : Bool) : Event → Bool
  | sock_open result => is_open || decide (result = NSAPI_ERROR_OK)
  | sock_close => false
  | sock_destructor => false
  | _ => is_open

/-- State of the socket after the calls `t`, from the state `is_open`. -/
def socket_open_after (is_open : Bool) (t : List Event) : Bool :=
  t.foldl socket_step is_open

/-! ## Entry point -/

/-- Banner printed by `main` on success. -/
def success_banner : String := "\n\nSuccess. Exiting \n\n"

/-- Banner printed by `main` on failure. -/
def failure_banner : String := "\n\nFailure. Exiting \n\n"

/-- The part of `main` before `do_connect`: greeting, tracing or progress
thread, default parameters.  The interface handle is the `World`, so the run
is the one in which `MBED_ASSERT(iface)` holds. -/
def main_prologue (c : Config) : List Event :=
  print_function "\n\nmbed-os-example-cellular\n" [] ++
  print_function "\n\nBuilt: %s, %s\n" [Arg.str c.build_date, Arg.str c.build_time] ++
  (match c.plmn with
    | none => []
    | some p => print_function "\n\n[MAIN], plmn: %s\n" [Arg.str (p.getD "NULL")]) ++
  print_function "Establishing connection\n" [] ++
  (if c.trace_enable then [trace_open] else [dot_thread_start]) ++
  [set_default_parameters]

/-- Function `main()`.  Returns the exit value and the calls made by the main
thread. -/
def main (c : Config) (w : World) : Int × List Event :=
  let t := main_prologue c
  let retcode := NSAPI_ERROR_NO_CONNECTION
  let connected := do_connect w
  let t := t ++ connected.2
  let echo := if connected.1 = NSAPI_ERROR_OK then test_send_recv c w else (retcode, [])
  let retcode := echo.1
  let t := t ++ echo.2
  let t := t ++ [disconnect w.disconnect]
  let t := if w.disconnect ≠ NSAPI_ERROR_OK then
      t ++ print_function "\n\n disconnect failed.\n\n" []
    else t
  let t := if retcode = NSAPI_ERROR_OK then
      t ++ print_function success_banner []
    else
      t ++ print_function failure_banner []
  let t := t ++ (if c.trace_enable then [trace_close] else [dot_thread_terminate])
  (0, t)

/-! ## Observations on a list of calls -/

/-- A write command on the AT channel (`at_cmd_discard`). -/
def is_write : Event → Bool
  | at_cmd_discard _ _ _ _ => true
  | _ => false

/-- A power operation of the cellular device. -/
def is_power : Event → Bool
  | hard_power_off => true
  | hard_power_on => true
  | soft_power_on => true
  | _ => false

/-- Taking or releasing the AT channel. -/
def is_lock_op : Event → Bool
  | at_lock => true
  | at_unlock => true
  | _ => false

/-- An AT command issued on the channel: the read query, response parsing,
the write and the last-error check. -/
def is_at_command : Event → Bool
  | cmd_start_stop _ _ => true
  | resp_start _ => true
  | read_int _ => true
  | resp_stop => true
  | at_cmd_discard _ _ _ _ => true
  | get_last_error _ => true
  | _ => false

/-- A call on the device: on its AT channel or on its power lines. -/
def is_device : Event → Bool :=
  fun e => is_lock_op e || is_at_command e || is_power e

/-- The lock discipline of one configuration pass: the list of calls is one
`lock`, a locked section, one `unlock` and a tail; the locked section holds no
lock operation and no power operation, the tail no lock operation and no AT
command. -/
def LockDiscipline (t : List Event) : Prop :=
  ∃ mid post, t = at_lock :: mid ++ at_unlock :: post ∧
    (∀ e ∈ mid, is_lock_op e = false ∧ is_power e = false) ∧
    (∀ e ∈ post, is_lock_op e = false ∧ is_at_command e = false)

/-- Walks a list of calls and checks that every `printf` happens while
`trace_mutex` is held; `held` is the state of the mutex on entry. -/
def writes_under_mutex : Bool → List Event → Bool
  | _, [] => true
  | _, trace_mutex_lock :: es => writes_under_mutex true es
  | _, trace_mutex_unlock :: es => writes_under_mutex false es
  | held, printf _ _ :: es => held && writes_under_mutex held es
  | held, _ :: es => writes_under_mutex held es

/-- The steps of `test_send_recv` between `open` and the receive did not
fail, with the tests the function applies: hostname resolution answered
NSAPI_ERROR_OK (IP transports), `connect` answered a non-negative value
(stream transport), the send answered a non-negative value. -/
def preceding_steps_ok (t : SockType) (w : World) : Prop :=
  match t with
  | NONIP => 0 ≤ w.sock_send
  | TCP => w.gethostbyname = NSAPI_ERROR_OK ∧ 0 ≤ w.sock_connect ∧ 0 ≤ w.sock_send
  | UDP => w.gethostbyname = NSAPI_ERROR_OK ∧ 0 ≤ w.sock_send

/-- A stream-transport build. -/
def tcp_config : Config where
  sock_type := TCP
  trace_enable := false
  plmn := none
  host_name := "echo.mbedcloudtesting.com"
  port := 7
  build_date := "Jan  1 2020"
  build_time := "00:00:00"

/-- The network is up and the socket opens, but the echo server's name does
not resolve (DNS failure, `-3009`). -/
def dns_failure_world : World :=
  let w := configured_world (fun _ => NSAPI_STATUS_GLOBAL_UP) (fun _ => NSAPI_ERROR_OK)
  World.mk w.bnd_gsm w.bnd_umts w.bnd_lte w.bnd_last_error w.iot_read w.iot_last_error
    w.wds_read w.wds_last_error w.connection_status w.connect w.sock_open (-3009)
    w.sock_connect w.sock_send w.sock_recv w.recv_data w.disconnect

/-- The world `w` with the received byte count replaced by `n` and the
received bytes by `data`. -/
def with_received (w : World) (n : Int) (data : List Nat) : World :=
  World.mk w.bnd_gsm w.bnd_umts w.bnd_lte w.bnd_last_error w.iot_read w.iot_last_error
    w.wds_read w.wds_last_error w.connection_status w.connect w.sock_open w.gethostbyname
    w.sock_connect w.sock_send n data w.disconnect

/-- A call of `sock.open`; `test_send_recv` is the only function making it. -/
def is_sock_open : Event → Bool
  | sock_open _ => true
  | _ => false

/-- A call of `iface->disconnect()`. -/
def is_disconnect : Event → Bool
  | disconnect _ => true
  | _ => false

/-- The write of one of the two final banners. -/
def is_banner : Event → Bool
  | printf format _ => format == success_banner || format == failure_banner
  | _ => false

/-- Calls that only `main` and `test_send_recv` make. -/
def is_main_level : Event → Bool :=
  fun e => is_sock_open e || is_disconnect e || is_banner e

/-! ## Device Configurator: theorems -/

/-- C4: in each of the three configuration functions, when the value read
equals the desired value, no write command and no power operation is issued,
and the calls on the device are exactly lock, the read query and unlock. -/
theorem config_equal_is_noop (gsm umts lte bnd_err iot iot_err wds wds_err : Int)
    (desired_iot desired_wds : Int)
    (hbnd : lte = DESIRED_LTE_BANDS_BITMASK) (hiot : iot = desired_iot)
    (hwds : wds = desired_wds) :
    ((set_desired_lte_bands gsm umts lte bnd_err).filter is_write = [] ∧
      (set_desired_lte_bands gsm umts lte bnd_err).filter is_power = [] ∧
      (set_desired_lte_bands gsm umts lte bnd_err).filter is_device =
        [at_lock, cmd_start_stop "#BND" "?", resp_start "#BND:", read_int gsm,
          read_int umts, read_int lte, resp_stop, at_unlock]) ∧
    ((set_iot_technology iot iot_err desired_iot).filter is_write = [] ∧
      (set_iot_technology iot iot_err desired_iot).filter is_power = [] ∧
      (set_iot_technology iot iot_err desired_iot).filter is_device =
        [at_lock, cmd_start_stop "#WS46" "?", resp_start "#WS46:", read_int iot,
          resp_stop, at_unlock]) ∧
    ((set_wds_side_stack wds wds_err desired_wds).filter is_write = [] ∧
      (set_wds_side_stack wds wds_err desired_wds).filter is_power = [] ∧
      (set_wds_side_stack wds wds_err desired_wds).filter is_device =
        [at_lock, cmd_start_stop "+WS46" "?", resp_start "+WS46:", read_int wds,
          resp_stop, at_unlock]) := by
  subst hbnd hiot hwds
  simp [set_desired_lte_bands, set_iot_technology, set_wds_side_stack, is_write,
    is_power, is_device, is_lock_op, is_at_command]

/-- Witness of C4: all three registers already hold the desired values. -/
theorem config_equal_is_noop_witness :
    ((set_desired_lte_bands 5 0 134742021 0).filter is_write = [] ∧
      (set_desired_lte_bands 5 0 134742021 0).filter is_power = [] ∧
      (set_desired_lte_bands 5 0 134742021 0).filter is_device =
        [at_lock, cmd_start_stop "#BND" "?", resp_start "#BND:", read_int 5,
          read_int 0, read_int 134742021, resp_stop, at_unlock]) ∧
    ((set_iot_technology 3 0 3).filter is_write = [] ∧
      (set_iot_technology 3 0 3).filter is_power = [] ∧
      (set_iot_technology 3 0 3).filter is_device =
        [at_lock, cmd_start_stop "#WS46" "?", resp_start "#WS46:", read_int 3,
          resp_stop, at_unlock]) ∧
    ((set_wds_side_stack 28 0 28).filter is_write = [] ∧
      (set_wds_side_stack 28 0 28).filter is_power = [] ∧
      (set_wds_side_stack 28 0 28).filter is_device =
        [at_lock, cmd_start_stop "+WS46" "?", resp_start "+WS46:", read_int 28,
          resp_stop, at_unlock]) :=
  config_equal_is_noop 5 0 134742021 0 3 0 28 0 3 28 rfl rfl rfl

/-- C5: in each of the three configuration functions, when the value read
differs from the desired value, exactly one write command is issued and it
carries the desired value; the power operations are exactly hard_power_off,
hard_power_on, soft_power_on when the last error after the write is
NSAPI_ERROR_OK, and there is none when it is not. -/
theorem config_differs_writes_once (gsm umts lte bnd_err iot iot_err wds wds_err : Int)
    (desired_iot desired_wds : Int)
    (hbnd : lte ≠ DESIRED_LTE_BANDS_BITMASK) (hiot : iot ≠ desired_iot)
    (hwds : wds ≠ desired_wds) :
    ((set_desired_lte_bands gsm umts lte bnd_err).filter is_write =
        [at_cmd_discard "#BND" "=" "%d%d%d" [5, 0, DESIRED_LTE_BANDS_BITMASK]] ∧
      (set_desired_lte_bands gsm umts lte bnd_err).filter is_power =
        if bnd_err = NSAPI_ERROR_OK then [hard_power_off, hard_power_on, soft_power_on]
        else []) ∧
    ((set_iot_technology iot iot_err desired_iot).filter is_write =
        [at_cmd_discard "#WS46" "=" "%d" [desired_iot]] ∧
      (set_iot_technology iot iot_err desired_iot).filter is_power =
        if iot_err = NSAPI_ERROR_OK then [hard_power_off, hard_power_on, soft_power_on]
        else []) ∧
    ((set_wds_side_stack wds wds_err desired_wds).filter is_write =
        [at_cmd_discard "+WS46" "=" "%d" [desired_wds]] ∧
      (set_wds_side_stack wds wds_err desired_wds).filter is_power =
        if wds_err = NSAPI_ERROR_OK then [hard_power_off, hard_power_on, soft_power_on]
        else []) := by
  refine ⟨?_, ?_, ?_⟩
  · by_cases h : bnd_err = NSAPI_ERROR_OK <;>
      simp [set_desired_lte_bands, power_cycle, is_write, is_power, hbnd, h]
  · by_cases h : iot_err = NSAPI_ERROR_OK <;>
      simp [set_iot_technology, power_cycle, is_write, is_power, hiot, h]
  · by_cases h : wds_err = NSAPI_ERROR_OK <;>
      simp [set_wds_side_stack, power_cycle, is_write, is_power, hwds, h]

/-- Witness of C5: the band write succeeds and power-cycles, the technology
write fails with a device error and does not, the stack write succeeds. -/
theorem config_differs_writes_once_witness :
    ((set_desired_lte_bands 5 0 7 0).filter is_write =
        [at_cmd_discard "#BND" "=" "%d%d%d" [5, 0, DESIRED_LTE_BANDS_BITMASK]] ∧
      (set_desired_lte_bands 5 0 7 0).filter is_power =
        if (0 : Int) = NSAPI_ERROR_OK then [hard_power_off, hard_power_on, soft_power_on]
        else []) ∧
    ((set_iot_technology 0 (-3012) 3).filter is_write =
        [at_cmd_discard "#WS46" "=" "%d" [3]] ∧
      (set_iot_technology 0 (-3012) 3).filter is_power =
        if (-3012 : Int) = NSAPI_ERROR_OK then [hard_power_off, hard_power_on, soft_power_on]
        else []) ∧
    ((set_wds_side_stack 12 0 28).filter is_write =
        [at_cmd_discard "+WS46" "=" "%d" [28]] ∧
      (set_wds_side_stack 12 0 28).filter is_power =
        if (0 : Int) = NSAPI_ERROR_OK then [hard_power_off, hard_power_on, soft_power_on]
        else []) :=
  config_differs_writes_once 5 0 7 0 0 (-3012) 12 0 3 28 (by decide) (by decide) (by decide)

/-- The lock discipline of `set_iot_technology`, on every path. -/
theorem set_iot_technology_lock (read last_error desired : Int) :
    LockDiscipline (set_iot_technology read last_error desired) := by
  unfold set_iot_technology LockDiscipline
  by_cases h1 : read = desired
  · refine ⟨[cmd_start_stop "#WS46" "?", resp_start "#WS46:", read_int read, resp_stop],
      [], ?_, ?_, ?_⟩ <;> simp [h1, is_lock_op, is_power]
  · by_cases h2 : last_error = NSAPI_ERROR_OK
    · refine ⟨[cmd_start_stop "#WS46" "?", resp_start "#WS46:", read_int read, resp_stop,
        at_cmd_discard "#WS46" "=" "%d" [desired], get_last_error last_error],
        power_cycle, ?_, ?_, ?_⟩ <;>
        simp [h1, h2, is_lock_op, is_power, is_at_command, power_cycle]
    · refine ⟨[cmd_start_stop "#WS46" "?", resp_start "#WS46:", read_int read, resp_stop,
        at_cmd_discard "#WS46" "=" "%d" [desired], get_last_error last_error,
        printf "ERROR: Unable to set IoT technology!\n" []], [], ?_, ?_, ?_⟩ <;>
        simp [h1, h2, is_lock_op, is_power]

/-- The lock discipline of `set_wds_side_stack`, on every path. -/
theorem set_wds_side_stack_lock (read last_error desired : Int) :
    LockDiscipline (set_wds_side_stack read last_error desired) := by
  unfold set_wds_side_stack LockDiscipline
  by_cases h1 : read = desired
  · refine ⟨[cmd_start_stop "+WS46" "?", resp_start "+WS46:", read_int read, resp_stop],
      [], ?_, ?_, ?_⟩ <;> simp [h1, is_lock_op, is_power]
  · by_cases h2 : last_error = NSAPI_ERROR_OK
    · refine ⟨[cmd_start_stop "+WS46" "?", resp_start "+WS46:", read_int read, resp_stop,
        at_cmd_discard "+WS46" "=" "%d" [desired], get_last_error last_error],
        power_cycle, ?_, ?_, ?_⟩ <;>
        simp [h1, h2, is_lock_op, is_power, is_at_command, power_cycle]
    · refine ⟨[cmd_start_stop "+WS46" "?", resp_start "+WS46:", read_int read, resp_stop,
        at_cmd_discard "+WS46" "=" "%d" [desired], get_last_error last_error,
        printf "ERROR: Unable to set WDS-Side Stack!\n" []], [], ?_, ?_, ?_⟩ <;>
        simp [h1, h2, is_lock_op, is_power]

/-- The lock discipline of `set_desired_lte_bands`, on every path. -/
theorem set_desired_lte_bands_lock (gsm umts lte last_error : Int) :
    LockDiscipline (set_desired_lte_bands gsm umts lte last_error) := by
  unfold set_desired_lte_bands LockDiscipline
  by_cases h1 : lte = DESIRED_LTE_BANDS_BITMASK
  · refine ⟨[cmd_start_stop "#BND" "?", resp_start "#BND:", read_int gsm, read_int umts,
      read_int lte, resp_stop, tr_info "GSM Bands Bitmask:     %d" [gsm],
      tr_info "UMTS Bands Bitmask:    %d" [umts],
      tr_info "LTE Bands Bitmask:     %d" [lte]], [], ?_, ?_, ?_⟩ <;>
      simp [h1, is_lock_op, is_power]
  · by_cases h2 : last_error = NSAPI_ERROR_OK
    · refine ⟨[cmd_start_stop "#BND" "?", resp_start "#BND:", read_int gsm, read_int umts,
        read_int lte, resp_stop, tr_info "GSM Bands Bitmask:     %d" [gsm],
        tr_info "UMTS Bands Bitmask:    %d" [umts],
        tr_info "LTE Bands Bitmask:     %d" [lte],
        at_cmd_discard "#BND" "=" "%d%d%d" [5, 0, DESIRED_LTE_BANDS_BITMASK],
        get_last_error last_error], power_cycle, ?_, ?_, ?_⟩ <;>
        simp [h1, h2, is_lock_op, is_power, is_at_command, power_cycle]
    · refine ⟨[cmd_start_stop "#BND" "?", resp_start "#BND:", read_int gsm, read_int umts,
        read_int lte, resp_stop, tr_info "GSM Bands Bitmask:     %d" [gsm],
        tr_info "UMTS Bands Bitmask:    %d" [umts],
        tr_info "LTE Bands Bitmask:     %d" [lte],
        at_cmd_discard "#BND" "=" "%d%d%d" [5, 0, DESIRED_LTE_BANDS_BITMASK],
        get_last_error last_error,
        printf "ERROR: Unable to set LTE bands!\n" []], [], ?_, ?_, ?_⟩ <;>
        simp [h1, h2, is_lock_op, is_power]

/-- C9: in each of the three configuration functions, for every device
response, the command channel is locked exactly once and unlocked exactly
once, every AT command lies between the lock and the unlock, and every power
operation comes after the unlock. -/
theorem config_lock_discipline (gsm umts lte bnd_err iot iot_err wds wds_err : Int)
    (desired_iot desired_wds : Int) :
    (LockDiscipline (set_desired_lte_bands gsm umts lte bnd_err) ∧
      (set_desired_lte_bands gsm umts lte bnd_err).count at_lock = 1 ∧
      (set_desired_lte_bands gsm umts lte bnd_err).count at_unlock = 1) ∧
    (LockDiscipline (set_iot_technology iot iot_err desired_iot) ∧
      (set_iot_technology iot iot_err desired_iot).count at_lock = 1 ∧
      (set_iot_technology iot iot_err desired_iot).count at_unlock = 1) ∧
    (LockDiscipline (set_wds_side_stack wds wds_err desired_wds) ∧
      (set_wds_side_stack wds wds_err desired_wds).count at_lock = 1 ∧
      (set_wds_side_stack wds wds_err desired_wds).count at_unlock = 1) := by
  refine ⟨⟨set_desired_lte_bands_lock _ _ _ _, ?_, ?_⟩,
    ⟨set_iot_technology_lock _ _ _, ?_, ?_⟩, ⟨set_wds_side_stack_lock _ _ _, ?_, ?_⟩⟩
  · by_cases h1 : lte = DESIRED_LTE_BANDS_BITMASK <;> by_cases h2 : bnd_err = NSAPI_ERROR_OK <;>
      simp [set_desired_lte_bands, h1, h2, power_cycle, List.count_cons]
  · by_cases h1 : lte = DESIRED_LTE_BANDS_BITMASK <;> by_cases h2 : bnd_err = NSAPI_ERROR_OK <;>
      simp [set_desired_lte_bands, h1, h2, power_cycle, List.count_cons]
  · by_cases h1 : iot = desired_iot <;> by_cases h2 : iot_err = NSAPI_ERROR_OK <;>
      simp [set_iot_technology, h1, h2, power_cycle, List.count_cons]
  · by_cases h1 : iot = desired_iot <;> by_cases h2 : iot_err = NSAPI_ERROR_OK <;>
      simp [set_iot_technology, h1, h2, power_cycle, List.count_cons]
  · by_cases h1 : wds = desired_wds <;> by_cases h2 : wds_err = NSAPI_ERROR_OK <;>
      simp [set_wds_side_stack, h1, h2, power_cycle, List.count_cons]
  · by_cases h1 : wds = desired_wds <;> by_cases h2 : wds_err = NSAPI_ERROR_OK <;>
      simp [set_wds_side_stack, h1, h2, power_cycle, List.count_cons]

/-- Every message sent through `print_function` is written while
`trace_mutex` is held. -/
theorem print_function_under_mutex (held : Bool) (format : String) (args : List Arg) :
    writes_under_mutex held (print_function format args) = true := by
  simp [print_function, writes_under_mutex]

/-- C10, evaluated where the write fails with a device error: each of the
three configuration functions writes its error message with a bare `printf`,
without taking `trace_mutex`. -/
theorem config_error_printed_without_mutex :
    set_iot_technology 0 (-3012) 3 =
      [at_lock, cmd_start_stop "#WS46" "?", resp_start "#WS46:", read_int 0, resp_stop,
        at_cmd_discard "#WS46" "=" "%d" [3], get_last_error (-3012),
        printf "ERROR: Unable to set IoT technology!\n" [], at_unlock] ∧
    writes_under_mutex false (set_iot_technology 0 (-3012) 3) = false ∧
    writes_under_mutex false (set_wds_side_stack 12 (-3012) 28) = false ∧
    writes_under_mutex false (set_desired_lte_bands 5 0 7 (-3012)) = false ∧
    trace_mutex_lock ∉ set_iot_technology 0 (-3012) 3 ∧
    trace_mutex_lock ∉ set_wds_side_stack 12 (-3012) 28 ∧
    trace_mutex_lock ∉ set_desired_lte_bands 5 0 7 (-3012) := by
  simp [set_iot_technology, set_wds_side_stack, set_desired_lte_bands,
    writes_under_mutex, NSAPI_ERROR_OK, DESIRED_LTE_BANDS_BITMASK]

/-! ## Connection Manager: theorems -/

theorem connect_requests_append (s t : List Event) :
    connect_requests (s ++ t) = connect_requests s + connect_requests t := by
  induction s with
  | nil => simp [connect_requests]
  | cons e s ih =>
    cases e <;> simp [connect_requests, ih]
    omega

/-- No configuration pass issues a connect request. -/
theorem connect_requests_config (gsm umts lte bnd_err iot iot_err wds wds_err : Int)
    (desired_iot desired_wds : Int) :
    connect_requests (set_desired_lte_bands gsm umts lte bnd_err) = 0 ∧
    connect_requests (set_iot_technology iot iot_err desired_iot) = 0 ∧
    connect_requests (set_wds_side_stack wds wds_err desired_wds) = 0 := by
  refine ⟨?_, ?_, ?_⟩
  · by_cases h1 : lte = DESIRED_LTE_BANDS_BITMASK <;>
      by_cases h2 : bnd_err = NSAPI_ERROR_OK <;>
      simp [set_desired_lte_bands, h1, h2, power_cycle, connect_requests]
  · by_cases h1 : iot = desired_iot <;> by_cases h2 : iot_err = NSAPI_ERROR_OK <;>
      simp [set_iot_technology, h1, h2, power_cycle, connect_requests]
  · by_cases h1 : wds = desired_wds <;> by_cases h2 : wds_err = NSAPI_ERROR_OK <;>
      simp [set_wds_side_stack, h1, h2, power_cycle, connect_requests]

/-- The part of `do_connect` before the loop issues no connect request. -/
theorem connect_requests_setup (w : World) :
    connect_requests ([hard_power_on, soft_power_on] ++
      set_desired_lte_bands w.bnd_gsm w.bnd_umts w.bnd_lte w.bnd_last_error ++
      set_iot_technology w.iot_read w.iot_last_error DESIRED_IOT_TECHNOLOGY ++
      set_wds_side_stack w.wds_read w.wds_last_error DESIRED_WDS_SIDE_STACK) = 0 := by
  obtain ⟨h1, h2, h3⟩ := connect_requests_config w.bnd_gsm w.bnd_umts w.bnd_lte
    w.bnd_last_error w.iot_read w.iot_last_error w.wds_read w.wds_last_error
    DESIRED_IOT_TECHNOLOGY DESIRED_WDS_SIDE_STACK
  simp only [connect_requests_append, h1, h2, h3]
  simp [connect_requests]

/-- One more iteration of the loop when the request fails with a retryable
error and the counter does not exceed `RETRY_COUNT`. -/
theorem connect_loop_retry (w : World) (retcode : Int) (retry_counter i : Nat)
    (hs : w.connection_status i ≠ NSAPI_STATUS_GLOBAL_UP)
    (ha : w.connect i ≠ NSAPI_ERROR_AUTH_FAILURE) (ho : w.connect i ≠ NSAPI_ERROR_OK)
    (hc : ¬ retry_counter > RETRY_COUNT) :
    connect_loop w retcode retry_counter i =
      ((connect_loop w (w.connect i) ((retry_counter + 1) % 2 ^ 8) (i + 1)).1,
        [get_connection_status (w.connection_status i), connect (w.connect i)] ++
        print_function "\n\nCouldn't connect: %d, will retry\n" [Arg.int (w.connect i)] ++
        (connect_loop w (w.connect i) ((retry_counter + 1) % 2 ^ 8) (i + 1)).2) := by
  rw [connect_loop]
  simp [hs, ha, ho, hc]

/-- The loop gives up when the request fails with a retryable error and the
counter exceeds `RETRY_COUNT`. -/
theorem connect_loop_fatal (w : World) (retcode : Int) (retry_counter i : Nat)
    (hs : w.connection_status i ≠ NSAPI_STATUS_GLOBAL_UP)
    (ha : w.connect i ≠ NSAPI_ERROR_AUTH_FAILURE) (ho : w.connect i ≠ NSAPI_ERROR_OK)
    (hc : retry_counter > RETRY_COUNT) :
    connect_loop w retcode retry_counter i =
      (w.connect i,
        [get_connection_status (w.connection_status i), connect (w.connect i)] ++
        print_function "\n\nFatal connection failure: %d\n" [Arg.int (w.connect i)]) := by
  rw [connect_loop]
  simp [hs, ha, ho, hc]

/-- When the interface never comes up and every request fails with a
retryable error, the loop entered with counter `retry_counter` issues
`RETRY_COUNT + 2 - retry_counter` requests and returns the answer of the last
one. -/
theorem connect_loop_exhausts (w : World)
    (hs : ∀ i, w.connection_status i ≠ NSAPI_STATUS_GLOBAL_UP)
    (ha : ∀ i, w.connect i ≠ NSAPI_ERROR_AUTH_FAILURE)
    (ho : ∀ i, w.connect i ≠ NSAPI_ERROR_OK) :
    ∀ (n retry_counter : Nat) (retcode : Int) (i : Nat),
      retry_counter + n = RETRY_COUNT + 1 →
      connect_requests (connect_loop w retcode retry_counter i).2 = n + 1 ∧
      (connect_loop w retcode retry_counter i).1 = w.connect (i + n) := by
  intro n
  induction n with
  | zero =>
    intro retry_counter retcode i h
    rw [connect_loop_fatal w retcode retry_counter i (hs i) (ha i) (ho i) (by omega)]
    simp [connect_requests, print_function]
  | succ n ih =>
    intro retry_counter retcode i h
    have hc : ¬ retry_counter > RETRY_COUNT := by omega
    have hm : (retry_counter + 1) % 2 ^ 8 = retry_counter + 1 := by
      simp only [RETRY_COUNT] at h
      omega
    rw [connect_loop_retry w retcode retry_counter i (hs i) (ha i) (ho i) hc, hm]
    obtain ⟨h1, h2⟩ := ih (retry_counter + 1) (w.connect i) (i + 1) (by omega)
    refine ⟨?_, ?_⟩
    · simp only [connect_requests_append, h1]
      simp [connect_requests, print_function]
      omega
    · simp only [h2]
      congr 1
      omega

/-- When the interface never comes up and every request fails with a
retryable error, `do_connect` issues `RETRY_COUNT + 2` connect requests, one
more than the initial attempt plus `RETRY_COUNT` retries, and returns the
answer of the last one. -/
theorem do_connect_exhausts (w : World)
    (hs : ∀ i, w.connection_status i ≠ NSAPI_STATUS_GLOBAL_UP)
    (ha : ∀ i, w.connect i ≠ NSAPI_ERROR_AUTH_FAILURE)
    (ho : ∀ i, w.connect i ≠ NSAPI_ERROR_OK) :
    connect_requests (do_connect w).2 = RETRY_COUNT + 2 ∧
    (do_connect w).1 = w.connect (RETRY_COUNT + 1) := by
  obtain ⟨h1, h2⟩ := connect_loop_exhausts w hs ha ho (RETRY_COUNT + 1) 0 NSAPI_ERROR_OK 0
    (by omega)
  unfold do_connect
  refine ⟨?_, ?_⟩
  · simp only []
    rw [connect_requests_append, connect_requests_setup, h1]
    omega
  · simp only [h2, Nat.zero_add]

/-- C1, evaluated on the run in which the interface is never up and every
connect request answers NSAPI_ERROR_NO_CONNECTION: `do_connect` issues five
connect requests, not `RETRY_COUNT + 1 = 4`, and returns the last answer. -/
theorem do_connect_issues_five_requests :
    connect_requests (do_connect (stuck_world NSAPI_ERROR_NO_CONNECTION)).2 = 5 ∧
    connect_requests (do_connect (stuck_world NSAPI_ERROR_NO_CONNECTION)).2 ≠
      RETRY_COUNT + 1 ∧
    (do_connect (stuck_world NSAPI_ERROR_NO_CONNECTION)).1 = NSAPI_ERROR_NO_CONNECTION := by
  simp [do_connect, connect_loop, stuck_world, configured_world, RETRY_COUNT,
    NSAPI_ERROR_AUTH_FAILURE, NSAPI_ERROR_OK, NSAPI_ERROR_NO_CONNECTION,
    set_desired_lte_bands, set_iot_technology, set_wds_side_stack, connect_requests,
    print_function]

theorem auth_final_of_no_connect (t : List Event) (ret : Int)
    (h : connect_requests t = 0) : AuthFailureIsFinal t ret := by
  intro pre post ht
  rw [ht, connect_requests_append] at h
  simp [connect_requests] at h

theorem auth_final_cons (e : Event) (t : List Event) (ret : Int)
    (he : e ≠ connect NSAPI_ERROR_AUTH_FAILURE) (h : AuthFailureIsFinal t ret) :
    AuthFailureIsFinal (e :: t) ret := by
  intro pre post ht
  cases pre with
  | nil =>
    simp only [List.nil_append, List.cons.injEq] at ht
    exact absurd ht.1 he
  | cons a pre =>
    simp only [List.cons_append, List.cons.injEq] at ht
    exact h pre post ht.2

theorem auth_final_here (t : List Event) (h : connect_requests t = 0) :
    AuthFailureIsFinal (connect NSAPI_ERROR_AUTH_FAILURE :: t) NSAPI_ERROR_AUTH_FAILURE := by
  intro pre post ht
  cases pre with
  | nil =>
    simp only [List.nil_append, List.cons.injEq, true_and] at ht
    exact ⟨ht ▸ h, rfl⟩
  | cons a pre =>
    simp only [List.cons_append, List.cons.injEq] at ht
    rw [ht.2, connect_requests_append] at h
    simp [connect_requests] at h

theorem auth_final_append (s t : List Event) (ret : Int)
    (hs : connect_requests s = 0) (h : AuthFailureIsFinal t ret) :
    AuthFailureIsFinal (s ++ t) ret := by
  induction s with
  | nil => simpa using h
  | cons e s ih =>
    have hs2 : connect_requests s = 0 := by
      cases e <;> simp_all [connect_requests]
    have he : e ≠ connect NSAPI_ERROR_AUTH_FAILURE := by
      rintro rfl
      simp [connect_requests] at hs
    exact auth_final_cons e (s ++ t) ret he (ih hs2)

/-- In the connect loop, entered in any state, a connect request answered with
authentication failure is the last one and its answer is returned. -/
theorem connect_loop_auth_final (w : World) (retcode : Int) (retry_counter i : Nat) :
    AuthFailureIsFinal (connect_loop w retcode retry_counter i).2
      (connect_loop w retcode retry_counter i).1 := by
  induction retcode, retry_counter, i using connect_loop.induct w with
  | case1 retcode retry_counter i hs rc ha =>
    have ha2 : w.connect i = NSAPI_ERROR_AUTH_FAILURE := ha
    rw [connect_loop]
    simp only [hs, ha2, ↓reduceIte, not_false_eq_true, ne_eq, List.cons_append,
      List.nil_append]
    refine auth_final_cons _ _ _ ?_ ?_
    · simp
    · exact auth_final_here _ (by simp [connect_requests, print_function])
  | case2 retcode retry_counter i hs rc ha ho =>
    have ha2 : w.connect i ≠ NSAPI_ERROR_AUTH_FAILURE := ha
    have ho2 : w.connect i = NSAPI_ERROR_OK := ho
    have hne : NSAPI_ERROR_OK ≠ NSAPI_ERROR_AUTH_FAILURE := ho2 ▸ ha2
    rw [connect_loop]
    simp only [hs, ho2, hne, ↓reduceIte, not_false_eq_true, ne_eq, List.cons_append,
      List.nil_append]
    refine auth_final_cons _ _ _ ?_ (auth_final_cons _ _ _ ?_ ?_)
    · simp
    · simpa using hne
    · exact auth_final_of_no_connect _ _ (by simp [connect_requests, print_function])
  | case3 retcode retry_counter i hs rc ha ho hc =>
    have ha2 : w.connect i ≠ NSAPI_ERROR_AUTH_FAILURE := ha
    have ho2 : w.connect i ≠ NSAPI_ERROR_OK := ho
    rw [connect_loop_fatal w retcode retry_counter i hs ha2 ho2 hc]
    simp only [List.cons_append, List.nil_append]
    refine auth_final_cons _ _ _ ?_ (auth_final_cons _ _ _ ?_ ?_)
    · simp
    · simpa using ha2
    · exact auth_final_of_no_connect _ _ (by simp [connect_requests, print_function])
  | case4 retcode retry_counter i hs rc ha ho hc ih =>
    have ha2 : w.connect i ≠ NSAPI_ERROR_AUTH_FAILURE := ha
    have ho2 : w.connect i ≠ NSAPI_ERROR_OK := ho
    rw [connect_loop_retry w retcode retry_counter i hs ha2 ho2 hc]
    simp only [List.cons_append, List.nil_append, List.append_assoc]
    refine auth_final_cons _ _ _ ?_ (auth_final_cons _ _ _ ?_ ?_)
    · simp
    · simpa using ha2
    · exact auth_final_append _ _ _ (by simp [connect_requests, print_function]) ih
  | case5 retcode retry_counter i hs =>
    rw [connect_loop]
    simp only [hs, ↓reduceIte]
    exact auth_final_of_no_connect _ _ (by simp [connect_requests])

/-- C2: for every sequence of connect answers and every value of the retry
counter, a connect request answered with authentication failure ends the
loop at once with that result, and in a whole run of `do_connect` no connect
request follows it and `do_connect` returns NSAPI_ERROR_AUTH_FAILURE. -/
theorem auth_failure_stops_connecting (w : World) :
    (∀ (retcode : Int) (retry_counter i : Nat),
      w.connection_status i ≠ NSAPI_STATUS_GLOBAL_UP →
      w.connect i = NSAPI_ERROR_AUTH_FAILURE →
      connect_loop w retcode retry_counter i =
        (NSAPI_ERROR_AUTH_FAILURE,
          [get_connection_status (w.connection_status i),
            connect NSAPI_ERROR_AUTH_FAILURE] ++
          print_function "\n\nAuthentication Failure. Exiting application\n" [])) ∧
    (∀ (retcode : Int) (retry_counter i : Nat) (pre post : List Event),
      (connect_loop w retcode retry_counter i).2 =
        pre ++ connect NSAPI_ERROR_AUTH_FAILURE :: post →
      connect_requests post = 0 ∧
      (connect_loop w retcode retry_counter i).1 = NSAPI_ERROR_AUTH_FAILURE) ∧
    (∀ (pre post : List Event),
      (do_connect w).2 = pre ++ connect NSAPI_ERROR_AUTH_FAILURE :: post →
      connect_requests post = 0 ∧ (do_connect w).1 = NSAPI_ERROR_AUTH_FAILURE) := by
  refine ⟨?_, ?_, ?_⟩
  · intro retcode retry_counter i hs ha
    rw [connect_loop]
    simp [hs, ha]
  · intro retcode retry_counter i pre post h
    exact connect_loop_auth_final w retcode retry_counter i pre post h
  · intro pre post h
    exact auth_final_append _ _ _ (connect_requests_setup w)
      (connect_loop_auth_final w NSAPI_ERROR_OK 0 0) pre post h

/-- Witness of C2: the second connect request of the run answers
authentication failure; only the report follows it, though a third request
would have succeeded. -/
theorem auth_failure_stops_connecting_witness :
    connect_requests (print_function
      "\n\nAuthentication Failure. Exiting application\n" []) = 0 ∧
    (do_connect auth_world).1 = NSAPI_ERROR_AUTH_FAILURE :=
  (auth_failure_stops_connecting auth_world).2.2
    ([hard_power_on, soft_power_on] ++
      set_desired_lte_bands 5 0 DESIRED_LTE_BANDS_BITMASK 0 ++
      set_iot_technology DESIRED_IOT_TECHNOLOGY 0 DESIRED_IOT_TECHNOLOGY ++
      set_wds_side_stack DESIRED_WDS_SIDE_STACK 0 DESIRED_WDS_SIDE_STACK ++
      [get_connection_status NSAPI_STATUS_DISCONNECTED, connect NSAPI_ERROR_NO_CONNECTION] ++
      print_function "\n\nCouldn't connect: %d, will retry\n"
        [Arg.int NSAPI_ERROR_NO_CONNECTION] ++
      [get_connection_status NSAPI_STATUS_DISCONNECTED])
    (print_function "\n\nAuthentication Failure. Exiting application\n" [])
    (by
      simp [do_connect, connect_loop, auth_world, configured_world, RETRY_COUNT,
        NSAPI_ERROR_AUTH_FAILURE, NSAPI_ERROR_OK, NSAPI_ERROR_NO_CONNECTION,
        set_desired_lte_bands, set_iot_technology, set_wds_side_stack, print_function])

/-- C3, evaluated on the run in which the first connect request fails and the
interface is globally up at the next status query: the loop stops on that
status and `do_connect` returns the stale NSAPI_ERROR_NO_CONNECTION, not
NSAPI_ERROR_OK. -/
theorem do_connect_returns_stale_error :
    connect_loop late_up_world NSAPI_ERROR_OK 0 0 =
      (NSAPI_ERROR_NO_CONNECTION,
        [get_connection_status NSAPI_STATUS_DISCONNECTED,
          connect NSAPI_ERROR_NO_CONNECTION, trace_mutex_lock,
          printf "\n\nCouldn't connect: %d, will retry\n" [Arg.int NSAPI_ERROR_NO_CONNECTION],
          trace_mutex_unlock, get_connection_status NSAPI_STATUS_GLOBAL_UP]) ∧
    (do_connect late_up_world).2.getLast? =
      some (get_connection_status NSAPI_STATUS_GLOBAL_UP) ∧
    (do_connect late_up_world).1 = NSAPI_ERROR_NO_CONNECTION ∧
    (do_connect late_up_world).1 ≠ NSAPI_ERROR_OK := by
  simp [do_connect, connect_loop, late_up_world, configured_world, RETRY_COUNT,
    NSAPI_ERROR_AUTH_FAILURE, NSAPI_ERROR_OK, NSAPI_ERROR_NO_CONNECTION,
    set_desired_lte_bands, set_iot_technology, set_wds_side_stack, print_function]

/-- When the interface is already globally up at the first status query,
`do_connect` issues no connect request and returns NSAPI_ERROR_OK. -/
theorem do_connect_already_up (w : World)
    (h : w.connection_status 0 = NSAPI_STATUS_GLOBAL_UP) :
    (do_connect w).1 = NSAPI_ERROR_OK ∧ connect_requests (do_connect w).2 = 0 := by
  have hl : connect_loop w NSAPI_ERROR_OK 0 0 =
      (NSAPI_ERROR_OK, [get_connection_status (w.connection_status 0)]) := by
    rw [connect_loop]
    simp [h]
  unfold do_connect
  refine ⟨?_, ?_⟩
  · simp only [hl]
  · simp only [hl]
    rw [connect_requests_append, connect_requests_setup]
    simp [connect_requests]

/-! ## Echo Verifier: theorems -/

/-- The explicit `sock.close()` is reached exactly when the socket opened and
no step before the receive failed. -/
theorem sock_close_iff_receive_reached (c : Config) (w : World) :
    sock_close ∈ (test_send_recv c w).2 ↔
      (w.sock_open = NSAPI_ERROR_OK ∧ preceding_steps_ok c.sock_type w) := by
  obtain ⟨st, te, pl, hn, po, bd, bt⟩ := c
  cases st <;>
    simp only [test_send_recv, test_send_recv_body, close_and_report, preceding_steps_ok, print_function] <;>
    split_ifs <;> simp_all

/-- The calls of a stream-transport run in which the socket opens and hostname
resolution fails: the body returns after the report, without `sock.close()`,
and the destructor of `sock` runs. -/
theorem test_send_recv_dns_failure_calls :
    test_send_recv tcp_config dns_failure_world =
      (-1, [sock_open 0, sock_set_timeout 15000,
        gethostbyname "echo.mbedcloudtesting.com" (-3009), trace_mutex_lock,
        printf "Couldn't resolve remote host: %s, code: %d\n"
          [Arg.str "echo.mbedcloudtesting.com", Arg.int (-3009)],
        trace_mutex_unlock, sock_destructor]) := by
  simp [test_send_recv, test_send_recv_body, tcp_config, dns_failure_world,
    configured_world, print_function, NSAPI_ERROR_OK]

/-- C6: for every transport and every answer of open, hostname resolution,
connect, send and receive, `test_send_recv` starts with `sock.open`, ends with
the destructor of `sock`, and leaves the socket closed; when the socket was
opened, the calls after the open close it on every path, by `sock.close()`
exactly when the receive is reached and by the destructor on the paths where
hostname resolution, connect or send fails. -/
theorem test_send_recv_closes_socket (c : Config) (w : World) :
    (test_send_recv c w).2.head? = some (sock_open w.sock_open) ∧
    (test_send_recv c w).2.getLast? = some sock_destructor ∧
    socket_open_after false (test_send_recv c w).2 = false ∧
    (w.sock_open = NSAPI_ERROR_OK →
      socket_open_after false [sock_open w.sock_open] = true ∧
      socket_open_after true (test_send_recv c w).2.tail = false ∧
      (sock_close ∈ (test_send_recv c w).2 ↔ preceding_steps_ok c.sock_type w)) := by
  obtain ⟨st, te, pl, hn, po, bd, bt⟩ := c
  refine ⟨?_, ?_, ?_, ?_⟩
  · cases st <;>
      simp only [test_send_recv, test_send_recv_body, close_and_report, print_function] <;>
      split_ifs <;> simp
  · cases st <;>
      simp only [test_send_recv, test_send_recv_body, close_and_report, print_function] <;>
      split_ifs <;> simp
  · cases st <;>
      simp only [test_send_recv, test_send_recv_body, close_and_report, print_function,
        socket_open_after] <;>
      split_ifs <;> simp [socket_step]
  · intro h
    refine ⟨by simp [socket_open_after, socket_step, h], ?_, ?_⟩
    · cases st <;>
        simp only [test_send_recv, test_send_recv_body, close_and_report, print_function,
          socket_open_after] <;>
        split_ifs <;> simp [socket_step]
    · have := sock_close_iff_receive_reached ⟨st, te, pl, hn, po, bd, bt⟩ w
      simpa [h] using this

/-- Witness of C6: a stream-transport run in which the socket opens and
hostname resolution fails; the body does not reach `sock.close()` and the
destructor closes the socket. -/
theorem test_send_recv_closes_socket_witness :
    socket_open_after false [sock_open dns_failure_world.sock_open] = true ∧
    socket_open_after true (test_send_recv tcp_config dns_failure_world).2.tail = false ∧
    (sock_close ∈ (test_send_recv tcp_config dns_failure_world).2 ↔
      preceding_steps_ok tcp_config.sock_type dns_failure_world) :=
  (test_send_recv_closes_socket tcp_config dns_failure_world).2.2.2 rfl

/-- C7: for every transport, `test_send_recv` returns `0` exactly when `open`
answered NSAPI_ERROR_OK, no step before the receive failed and the received
byte count is strictly positive, and `-1` otherwise; the result depends
neither on the received bytes nor on which positive count was received; the
receive buffer holds 4 bytes, the length of the payload "TEST". -/
theorem test_send_recv_result (c : Config) (w : World) :
    ((test_send_recv c w).1 = 0 ↔
      (w.sock_open = NSAPI_ERROR_OK ∧ preceding_steps_ok c.sock_type w ∧
        0 < w.sock_recv)) ∧
    ((test_send_recv c w).1 = 0 ∨ (test_send_recv c w).1 = -1) ∧
    (∀ (n : Int) (data data2 : List Nat),
      (test_send_recv c (with_received w n data)).1 =
        (test_send_recv c (with_received w n data2)).1) ∧
    (∀ (n m : Int) (data : List Nat), 0 < n → 0 < m →
      (test_send_recv c (with_received w n data)).1 =
        (test_send_recv c (with_received w m data)).1) ∧
    (recv_buf_size = 4 ∧ strlen echo_string = recv_buf_size ∧ echo_string = "TEST") := by
  obtain ⟨st, te, pl, hn, po, bd, bt⟩ := c
  refine ⟨?_, ?_, ?_, ?_, ?_⟩
  · cases st <;>
      simp only [test_send_recv, test_send_recv_body, close_and_report, preceding_steps_ok] <;>
      split_ifs <;> simp_all
  · cases st <;>
      simp only [test_send_recv, test_send_recv_body, close_and_report] <;>
      split_ifs <;> simp
  · intro n data data2
    cases st <;>
      simp only [test_send_recv, test_send_recv_body, close_and_report, with_received] <;>
      split_ifs <;> simp
  · intro n m data hn hm
    cases st <;>
      simp only [test_send_recv, test_send_recv_body, close_and_report, with_received] <;>
      split_ifs <;> simp_all
  · refine ⟨rfl, by decide, rfl⟩

/-- Witness of C7: on a datagram build, one received byte and four received
bytes give the same result, and the run in which every step succeeds and
four bytes arrive returns `0`. -/
theorem test_send_recv_result_witness :
    (test_send_recv (Config.mk UDP false none "echo.mbedcloudtesting.com" 7 "" "")
        (with_received late_up_world 1 [84])).1 =
      (test_send_recv (Config.mk UDP false none "echo.mbedcloudtesting.com" 7 "" "")
        (with_received late_up_world 4 [84])).1 ∧
    (test_send_recv (Config.mk UDP false none "echo.mbedcloudtesting.com" 7 "" "")
      late_up_world).1 = 0 :=
  ⟨(test_send_recv_result (Config.mk UDP false none "echo.mbedcloudtesting.com" 7 "" "")
      late_up_world).2.2.2.1 1 4 [84] (by decide) (by decide),
    (test_send_recv_result (Config.mk UDP false none "echo.mbedcloudtesting.com" 7 "" "")
      late_up_world).1.2 ⟨rfl, ⟨rfl, by decide⟩, by decide⟩⟩

/-! ## Entry point: theorems -/

theorem filter_main_level_config (gsm umts lte bnd_err iot iot_err wds wds_err : Int)
    (desired_iot desired_wds : Int) :
    (set_desired_lte_bands gsm umts lte bnd_err).filter is_main_level = [] ∧
    (set_iot_technology iot iot_err desired_iot).filter is_main_level = [] ∧
    (set_wds_side_stack wds wds_err desired_wds).filter is_main_level = [] := by
  refine ⟨?_, ?_, ?_⟩
  · by_cases h1 : lte = DESIRED_LTE_BANDS_BITMASK <;>
      by_cases h2 : bnd_err = NSAPI_ERROR_OK <;>
      simp [set_desired_lte_bands, h1, h2, power_cycle, is_main_level, is_sock_open,
        is_disconnect, is_banner, success_banner, failure_banner]
  · by_cases h1 : iot = desired_iot <;> by_cases h2 : iot_err = NSAPI_ERROR_OK <;>
      simp [set_iot_technology, h1, h2, power_cycle, is_main_level, is_sock_open,
        is_disconnect, is_banner, success_banner, failure_banner]
  · by_cases h1 : wds = desired_wds <;> by_cases h2 : wds_err = NSAPI_ERROR_OK <;>
      simp [set_wds_side_stack, h1, h2, power_cycle, is_main_level, is_sock_open,
        is_disconnect, is_banner, success_banner, failure_banner]

theorem filter_main_level_connect_loop (w : World) (retcode : Int)
    (retry_counter i : Nat) :
    (connect_loop w retcode retry_counter i).2.filter is_main_level = [] := by
  induction retcode, retry_counter, i using connect_loop.induct w with
  | case1 retcode retry_counter i hs rc ha =>
    have ha2 : w.connect i = NSAPI_ERROR_AUTH_FAILURE := ha
    rw [connect_loop]
    simp [hs, ha2, print_function, is_main_level, is_sock_open, is_disconnect, is_banner,
      success_banner, failure_banner]
  | case2 retcode retry_counter i hs rc ha ho =>
    have ha2 : w.connect i ≠ NSAPI_ERROR_AUTH_FAILURE := ha
    have ho2 : w.connect i = NSAPI_ERROR_OK := ho
    have hne : NSAPI_ERROR_OK ≠ NSAPI_ERROR_AUTH_FAILURE := ho2 ▸ ha2
    rw [connect_loop]
    simp [hs, ho2, hne, print_function, is_main_level, is_sock_open, is_disconnect,
      is_banner, success_banner, failure_banner]
  | case3 retcode retry_counter i hs rc ha ho hc =>
    rw [connect_loop_fatal w retcode retry_counter i hs ha ho hc]
    simp [print_function, is_main_level, is_sock_open, is_disconnect, is_banner,
      success_banner, failure_banner]
  | case4 retcode retry_counter i hs rc ha ho hc ih =>
    rw [connect_loop_retry w retcode retry_counter i hs ha ho hc]
    simp only [List.filter_append, ih]
    simp [print_function, is_main_level, is_sock_open, is_disconnect, is_banner,
      success_banner, failure_banner]
  | case5 retcode retry_counter i hs =>
    rw [connect_loop]
    simp [hs, is_main_level, is_sock_open, is_disconnect, is_banner]

theorem filter_main_level_do_connect (w : World) :
    (do_connect w).2.filter is_main_level = [] := by
  obtain ⟨h1, h2, h3⟩ := filter_main_level_config w.bnd_gsm w.bnd_umts w.bnd_lte
    w.bnd_last_error w.iot_read w.iot_last_error w.wds_read w.wds_last_error
    DESIRED_IOT_TECHNOLOGY DESIRED_WDS_SIDE_STACK
  unfold do_connect
  simp only [List.filter_append, h1, h2, h3, filter_main_level_connect_loop]
  simp [is_main_level, is_sock_open, is_disconnect, is_banner]

/-- In `test_send_recv` the first call is `sock.open`, and the function
neither disconnects nor prints a final banner. -/
theorem test_send_recv_calls (c : Config) (w : World) :
    (test_send_recv c w).2.filter is_sock_open = [sock_open w.sock_open] ∧
    (test_send_recv c w).2.filter is_disconnect = [] ∧
    (test_send_recv c w).2.filter is_banner = [] := by
  obtain ⟨st, te, pl, hn, po, bd, bt⟩ := c
  refine ⟨?_, ?_, ?_⟩ <;>
    cases st <;>
    simp only [test_send_recv, test_send_recv_body, close_and_report, print_function] <;>
    split_ifs <;>
    simp [is_sock_open, is_disconnect, is_banner, success_banner, failure_banner,
      open_fails_format]

/-- The calls of `main`, phase by phase. -/
theorem main_calls (c : Config) (w : World) :
    (main c w).2 =
      main_prologue c ++ (do_connect w).2 ++
      (if (do_connect w).1 = NSAPI_ERROR_OK then (test_send_recv c w).2 else []) ++
      [disconnect w.disconnect] ++
      (if w.disconnect ≠ NSAPI_ERROR_OK then
        print_function "\n\n disconnect failed.\n\n" [] else []) ++
      print_function
        (if (do_connect w).1 = NSAPI_ERROR_OK ∧ (test_send_recv c w).1 = 0
          then success_banner else failure_banner) [] ++
      (if c.trace_enable then [trace_close] else [dot_thread_terminate]) := by
  have hno : NSAPI_ERROR_NO_CONNECTION ≠ NSAPI_ERROR_OK := by decide
  have hok : ((0 : Int) = NSAPI_ERROR_OK) = True := by simp [NSAPI_ERROR_OK]
  have hiff : ((test_send_recv c w).1 = NSAPI_ERROR_OK) = ((test_send_recv c w).1 = 0) := rfl
  unfold main
  by_cases h1 : (do_connect w).1 = NSAPI_ERROR_OK <;>
    by_cases h2 : w.disconnect = NSAPI_ERROR_OK <;>
    by_cases h3 : (test_send_recv c w).1 = 0 <;>
    simp [h1, h2, h3, hno, hok, hiff]

/-- Function `do_connect` opens no socket, does not disconnect and prints no
final banner. -/
theorem do_connect_calls (w : World) :
    (do_connect w).2.filter is_sock_open = [] ∧
    (do_connect w).2.filter is_disconnect = [] ∧
    (do_connect w).2.filter is_banner = [] := by
  have h := filter_main_level_do_connect w
  simp only [List.filter_eq_nil_iff, is_main_level, Bool.or_eq_true, not_or] at h ⊢
  exact ⟨fun a ha => (h a ha).1.1, fun a ha => (h a ha).1.2, fun a ha => (h a ha).2⟩

/-- The prologue of `main` opens no socket, does not disconnect and prints no
final banner. -/
theorem main_prologue_calls (c : Config) :
    (main_prologue c).filter is_sock_open = [] ∧
    (main_prologue c).filter is_disconnect = [] ∧
    (main_prologue c).filter is_banner = [] := by
  obtain ⟨st, te, pl, hn, po, bd, bt⟩ := c
  refine ⟨?_, ?_, ?_⟩ <;> cases te <;> cases pl <;>
    simp [main_prologue, print_function, is_sock_open, is_disconnect, is_banner,
      success_banner, failure_banner]

/-- C8: for every build and every answer of the collaborators, `main` runs
`test_send_recv` (seen by its `sock.open`) only when `do_connect` returned
NSAPI_ERROR_OK, disconnects exactly once, and after the disconnect prints
exactly one final banner: the success banner when `do_connect` returned
NSAPI_ERROR_OK and `test_send_recv` returned `0`, the failure banner
otherwise. -/
theorem main_disconnects_and_reports_once (c : Config) (w : World) :
    ((main c w).2.filter is_sock_open =
      if (do_connect w).1 = NSAPI_ERROR_OK then [sock_open w.sock_open] else []) ∧
    (main c w).2.filter is_disconnect = [disconnect w.disconnect] ∧
    (∃ pre post, (main c w).2 = pre ++ disconnect w.disconnect :: post ∧
      pre.filter is_banner = [] ∧
      post.filter is_banner =
        [printf (if (do_connect w).1 = NSAPI_ERROR_OK ∧ (test_send_recv c w).1 = 0
          then success_banner else failure_banner) []]) := by
  obtain ⟨p1, p2, p3⟩ := main_prologue_calls c
  obtain ⟨d1, d2, d3⟩ := do_connect_calls w
  obtain ⟨t1, t2, t3⟩ := test_send_recv_calls c w
  have hb : ∀ s : String, (s = success_banner ∨ s = failure_banner) →
      (print_function s []).filter is_banner = [printf s []] := by
    intro s hs
    rcases hs with rfl | rfl <;> simp [print_function, is_banner]
  have hsel : (if (do_connect w).1 = NSAPI_ERROR_OK ∧ (test_send_recv c w).1 = 0
      then success_banner else failure_banner) = success_banner ∨
      (if (do_connect w).1 = NSAPI_ERROR_OK ∧ (test_send_recv c w).1 = 0
      then success_banner else failure_banner) = failure_banner := by
    split_ifs <;> simp
  refine ⟨?_, ?_, ?_⟩
  · rw [main_calls]
    simp only [List.filter_append, p1, d1]
    by_cases h1 : (do_connect w).1 = NSAPI_ERROR_OK <;>
      by_cases h2 : w.disconnect = NSAPI_ERROR_OK <;> cases c.trace_enable <;>
      simp [h1, h2, t1, print_function, is_sock_open]
  · rw [main_calls]
    simp only [List.filter_append, p2, d2]
    by_cases h1 : (do_connect w).1 = NSAPI_ERROR_OK <;>
      by_cases h2 : w.disconnect = NSAPI_ERROR_OK <;> cases c.trace_enable <;>
      simp [h1, h2, t2, print_function, is_disconnect]
  · refine ⟨main_prologue c ++ (do_connect w).2 ++
        (if (do_connect w).1 = NSAPI_ERROR_OK then (test_send_recv c w).2 else []),
      (if w.disconnect ≠ NSAPI_ERROR_OK then
        print_function "\n\n disconnect failed.\n\n" [] else []) ++
      print_function
        (if (do_connect w).1 = NSAPI_ERROR_OK ∧ (test_send_recv c w).1 = 0
          then success_banner else failure_banner) [] ++
      (if c.trace_enable then [trace_close] else [dot_thread_terminate]), ?_, ?_, ?_⟩
    · rw [main_calls]
      simp
    · simp only [List.filter_append, p3, d3]
      split_ifs <;> simp [t3]
    · simp only [List.filter_append, hb _ hsel]
      by_cases h2 : w.disconnect = NSAPI_ERROR_OK <;> cases c.trace_enable <;>
        simp [h2, print_function, is_banner, success_banner, failure_banner]

end Cellular
